import Mathlib

/-!
# Verification of the neorest message runtime

A shallow embedding of the per-connection protocol engine (`Connection`)
and the multi-connection `Router` of the neorest repository, together with
proofs about the behaviour claimed in its specification.

Modelling conventions:
* Stateful TypeScript methods become pure Lean functions taking and
  returning an explicit state record, paired with a list of observable
  `Event`s (transport sends, callback invocations, hook firings).
* JavaScript numbers that hold message ids, statuses and timestamps are
  modelled as `Int`; counters as `Nat`.
* A `Promise<T>` that some method eventually settles is modelled by its
  eventual value together with an `isPending` flag (see `TrackedResp`);
  the engine only ever inspects the flag and re-sends the original value.
* Externally registered hooks (`onDataSet`, `onSubscribeToRoute`,
  `onUnsubscribeFromRoute`, `onRouteMessage`) are a parameter `Hooks σ`
  acting on an abstract hook state `σ`; a hook that may throw returns
  `Except String σ`.
-/

/-- JSON-like payload values. The engine itself only ever constructs
scalars and the two-element array `[key, value]` (in `handleDataSet`),
which is modelled by the `pair` constructor. -/
inductive Payload where
  | str : String → Payload
  | num : Int → Payload
  | boolv : Bool → Payload
  | null : Payload
  | pair : Payload → Payload → Payload
deriving DecidableEq, Repr

/-- JavaScript truthiness of a payload value. -/
def payloadTruthy : Payload → Bool
  | .str s => s ≠ ""
  | .num n => n ≠ 0
  | .boolv b => b
  | .null => false
  | .pair _ _ => true

/-- Route verbs.  The TypeScript union lacks `UPDATE`, but
`broadcastUpdate` casts the string `"UPDATE"` into the type, so the
runtime set of verbs includes it. -/
inductive RouteVerb where
  | ANY | GET | POST | DELETE | LISTEN | UPDATE | RESPONSE
deriving DecidableEq, Repr

/-- Message bodies (tagged union on the wire).  `other` covers any
discriminator string outside the known set: the TypeScript type is open
(`MsgType._type : string`) and the dispatch switch has a default branch
that throws on such bodies. -/
inductive MsgType where
  | dataSet (key : String) (value : Payload)
  | ping
  | res (target : Int) (status : Int) (data : Payload)
  | onRoute (route : String)
  | offRoute (route : String)
  | route (verb : RouteVerb) (routePath : String) (data : Payload)
      (headers : List (String × String))
  | other (tag : String)
deriving DecidableEq, Repr

def MsgType.isRes : MsgType → Bool
  | .res _ _ _ => true
  | _ => false

/-- The wire envelope `(id, msg)`. -/
structure MsgWrapper where
  id : Int
  msg : MsgType
deriving DecidableEq, Repr

def new_MsgWrapper (id : Int) (msg : MsgType) : MsgWrapper := ⟨id, msg⟩

/-- A send-and-forget envelope carries id `-1`. -/
def new_SendAndForgetMsgWrapper (msg : MsgType) : MsgWrapper := ⟨-1, msg⟩

def new_MsgResponse (target status : Int) (data : Payload) : MsgType :=
  .res target status data

/-- Source `data` is `"OK"` when the caller passed no data (TS: `data !== undefined ? data : "OK"`). -/
def new_MsgResponseOK (target : Int) (data : Option Payload) : MsgType :=
  new_MsgResponse target 200 (data.getD (.str "OK"))

/-- The TS signature types `text` as a string but the runtime value that
flows through (`resp.error`, `msg.data`) is an arbitrary payload. -/
def new_MsgResponseWithCode (target status : Int) (text : Payload) : MsgType :=
  .res target status text

def new_MsgGenericError (target : Int) (text : String) : MsgType :=
  new_MsgResponseWithCode target 500 (.str text)

/-- Public response handed to application callbacks.  `error` is typed
`string` in TS but holds whatever payload was cast into it at runtime. -/
structure RouteResponse where
  data : Payload
  error : Option Payload
deriving DecidableEq, Repr

def new_RouteResponse (data : Payload) : RouteResponse := ⟨data, none⟩

def new_RouteResponseError (error : Payload) : RouteResponse := ⟨.str "", some error⟩

/-- Outbound retry record (`SentMessages` in types.ts). -/
structure SentMessages where
  wrappedMsg : MsgWrapper
  sentAt : Int
  sentAmount : Nat
deriving DecidableEq, Repr

/-- Source `TrackedPromise<MsgResponse>` as the engine observes it: the original
value (for a promise, the value it eventually settles to) and whether it
is still pending. -/
structure TrackedResp where
  original : MsgType
  isPending : Bool
deriving DecidableEq, Repr

/-- Source `MessageResponsePair`: an inbound dedup record. -/
structure ReceivedPair where
  wrapper : MsgWrapper
  response : TrackedResp
deriving DecidableEq, Repr

/-- Observable effects of one engine operation. -/
inductive Event where
  | sent (w : MsgWrapper)
  | dispatched (id : Int)
  | cbInvoked (target : Int) (r : RouteResponse)
  | syncCb (target status : Int) (data : Payload)
  | dataSetFired (key : String) (value : Payload)
  | subscribeFired (route : String)
  | unsubscribeFired (route : String)
  | routeMsgFired (id : Int) (routePath : String)
deriving DecidableEq, Repr

/-- The mutable fields of a `Connection`. `callbacks` keeps only the set
of registered message ids; invoking a callback is recorded as an
`Event.cbInvoked`, since the stored closures are application code.
`connected` is `strategy.isConnected()`. -/
structure ConnState where
  nextMsgId : Int
  isClient : Bool
  messagesToAck : List SentMessages
  receivedMessages : List ReceivedPair
  messagesToSendAfterReconnect : List MsgWrapper
  callbacks : List Int
  messagesSentInASecond : Nat
  header : List (String × Payload)
  connected : Bool
deriving DecidableEq, Repr

namespace Connection

def SEND_LIMIT_PER_SEC : Nat := 100

/-- Record-style update of the header object: replace the value if the
key is present, else append the new binding. -/
def setHeader (h : List (String × Payload)) (k : String) (v : Payload) :
    List (String × Payload) :=
  if h.any (fun kv => kv.1 = k) then
    h.map (fun kv => if kv.1 = k then (k, v) else kv)
  else h ++ [(k, v)]

def getHeader (h : List (String × Payload)) (k : String) : Option Payload :=
  (h.find? (fun kv => kv.1 = k)).map (fun kv => kv.2)

/-- Source `this.header['secret'] as ConnectionSecret || ''`: the secret is a
string installed by the handshake; a missing or falsy entry reads as `""`. -/
def getSecret (cs : ConnState) : String :=
  match getHeader cs.header "secret" with
  | some (.str s) => s
  | _ => ""

def messageNeedsAck (w : MsgWrapper) : Bool :=
  w.id ≠ -1 && !w.msg.isRes

/-- Index of the last entry of `messagesToAck` with the given id, `-1`
when absent (the TS loop runs from the end of the array). -/
def findLastAckIdxAux (id : Int) : List SentMessages → Option Nat
  | [] => none
  | m :: rest =>
    match findLastAckIdxAux id rest with
    | some j => some (j + 1)
    | none => if m.wrappedMsg.id = id then some 0 else none

def findLastAckIdx (l : List SentMessages) (id : Int) : Int :=
  match findLastAckIdxAux id l with
  | some j => (j : Int)
  | none => -1

/-- In-place `sentAmount++` / `sentAt = now` at a given index; call sites
only pass `-1` (translated to a lookup) or an index of a live entry. -/
def bumpAt (l : List SentMessages) (i : Int) (now : Int) : List SentMessages :=
  if 0 ≤ i then
    match l[i.toNat]? with
    | some m => l.set i.toNat ⟨m.wrappedMsg, now, m.sentAmount + 1⟩
    | none => l
  else l

/-- Source `sendWrappedMsg`: upsert into the retry log when the envelope needs
an acknowledgement, then hand the envelope to the transport. -/
def sendWrappedMsg (now : Int) (cs : ConnState) (w : MsgWrapper)
    (sentIdx : Int) : ConnState × List Event :=
  let cs :=
    if messageNeedsAck w then
      let targetIndex :=
        if sentIdx = -1 then findLastAckIdx cs.messagesToAck w.id else sentIdx
      if targetIndex = -1 then
        { cs with messagesToAck := cs.messagesToAck ++ [⟨w, now, 1⟩] }
      else
        { cs with messagesToAck := bumpAt cs.messagesToAck targetIndex now }
    else cs
  (cs, [.sent w])

/-- Source `postAndForget`: wrap with id `-1` and send only while connected
(dropped otherwise).  A promised body is awaited before sending; the
event records the value it settles to. -/
def postAndForget (now : Int) (cs : ConnState) (msg : MsgType) :
    ConnState × List Event :=
  let w := new_SendAndForgetMsgWrapper msg
  if cs.connected then sendWrappedMsg now cs w (-1) else (cs, [])

/-- Source `postAndExpectResponse`: allocate a fresh id; throws on an attempt to
ack a `res` body. -/
def postAndExpectResponse (now : Int) (cs : ConnState) (msg : MsgType) :
    Except String (ConnState × Int × List Event) :=
  if msg.isRes then
    .error "Cant send a response that expects an acknowledge"
  else
    let id := cs.nextMsgId
    let cs := { cs with nextMsgId := cs.nextMsgId + 1 }
    let w := new_MsgWrapper id msg
    if cs.connected then
      let (cs, evs) := sendWrappedMsg now cs w (-1)
      .ok (cs, id, evs)
    else
      .ok ({ cs with
              messagesToSendAfterReconnect :=
                cs.messagesToSendAfterReconnect ++ [w] }, id, [])

/-- Source `Map.set` on the callback registry, keyed by message id. -/
def insertCb (l : List Int) (id : Int) : List Int :=
  if l.contains id then l else l ++ [id]

/-- Source `sendToRoute`.  `hasCallback` records whether the caller supplied a
`cb`; its synchronous 429 invocation is the `syncCb` event. -/
def sendToRoute (now : Int) (cs : ConnState) (routePath : String)
    (verb : RouteVerb) (payload : Payload) (headers : List (String × String))
    (hasCallback : Bool) : ConnState × List Event :=
  let evs429 :=
    if cs.messagesSentInASecond > SEND_LIMIT_PER_SEC && hasCallback then
      [Event.syncCb (-1) 429
        (.str "Rate limit of 100 messages per second exceeded")]
    else []
  let msg := MsgType.route verb routePath
    (if payloadTruthy payload then payload else .str "") headers
  match postAndExpectResponse now cs msg with
  | .error _ => (cs, evs429)  -- unreachable: a route body is never a res body
  | .ok (cs, id, evs) =>
    let cs := { cs with messagesSentInASecond := cs.messagesSentInASecond + 1 }
    let cs := if hasCallback then { cs with callbacks := insertCb cs.callbacks id }
              else cs
    (cs, evs429 ++ evs)

/-- Remove the last retry-log entry with the given id (the TS loop scans
from the end and splices the first match it finds). -/
def removeMessageToAck (l : List SentMessages) (id : Int) : List SentMessages :=
  ((l.reverse).eraseP (fun m => m.wrappedMsg.id == id)).reverse

/-- Source `handleResponse`: process an inbound `res` body. -/
def handleResponse (cs : ConnState) (target status : Int) (data : Payload) :
    ConnState × List Event :=
  if status = 202 then (cs, [])
  else
    let response : RouteResponse :=
      if status = 200 then new_RouteResponse data
      else new_RouteResponseError data
    let (cs, evs) :=
      if cs.callbacks.contains target then
        ({ cs with callbacks := cs.callbacks.filter (fun k => k ≠ target) },
         [Event.cbInvoked target response])
      else (cs, [])
    ({ cs with messagesToAck := removeMessageToAck cs.messagesToAck target }, evs)

end Connection

/-- The externally registered hooks of a `Connection`, acting on an
abstract hook state `σ` (the `Router` when wired server-side).  Each hook
receives the connection state current at its call site; `on/off` hooks
may throw. -/
structure Hooks (σ : Type) where
  onDataSet : σ → ConnState → String → Payload → σ
  onSubscribeToRoute : σ → ConnState → String → Except String σ
  onUnsubscribeFromRoute : σ → ConnState → String → Except String σ
  onRouteMessage : σ → ConnState → Int → String → RouteVerb → Payload →
    σ × Option RouteResponse

namespace Connection

/-- Source `handleDataSet`: install the header entry and build the echo response. -/
def handleDataSet (cs : ConnState) (msgId : Int) (key : String)
    (value : Payload) : ConnState × MsgType :=
  ({ cs with header := setHeader cs.header key value },
   new_MsgResponseOK msgId (some (.pair (.str key) value)))

/-- The response `handleRouteMessage` settles to, given what the
application handler returned (`none` for a void return). -/
def routeMessageResponse (msgId : Int) (resp : Option RouteResponse) : MsgType :=
  match resp with
  | none => new_MsgResponseOK msgId none
  | some r =>
    match r.error with
    | none => new_MsgResponseOK msgId (some r.data)
    | some e =>
      if payloadTruthy e then new_MsgResponseWithCode msgId 400 e
      else new_MsgResponseOK msgId (some r.data)

/-- Source `handleRouteMessage`: await the application handler, then translate
its `RouteResponse` (or void) into a `res` body. -/
def handleRouteMessage {σ : Type} (hooks : Hooks σ) (s : σ) (cs : ConnState)
    (msgId : Int) (routePath : String) (verb : RouteVerb) (d : Payload) :
    σ × MsgType :=
  let (s', resp) := hooks.onRouteMessage s cs msgId routePath verb d
  (s', routeMessageResponse msgId resp)

/-- Last dedup-log entry with the given id (the TS loop scans
`receivedMessages` from the end). -/
def getReceivedPairById (l : List ReceivedPair) (id : Int) : Option ReceivedPair :=
  (l.reverse).find? (fun p => p.wrapper.id = id)

/-- Outcome of the dispatch switch: a synchronous response value, a
response promise (pending when the dedup record is created), no response
(the `res` case), or a synchronous throw. -/
inductive DispatchOut where
  | value (r : MsgType)
  | promise (r : MsgType)
  | nullResp
  | thrown
deriving DecidableEq, Repr

/-- The dispatch switch of `handleMessage` (one case per body type; the
default case throws on an unknown discriminator). -/
def dispatchSwitch {σ : Type} (hooks : Hooks σ) (s : σ) (cs : ConnState)
    (id : Int) (msg : MsgType) : σ × ConnState × List Event × DispatchOut :=
  match msg with
  | .dataSet k v =>
    let (cs, resp) := handleDataSet cs id k v
    let s := hooks.onDataSet s cs k v
    (s, cs, [.dispatched id, .dataSetFired k v], .value resp)
  | .ping =>
    (s, cs, [.dispatched id], .value (new_MsgResponseOK id (some (.str "pong"))))
  | .res target status d =>
    let (cs, evs) := handleResponse cs target status d
    (s, cs, .dispatched id :: evs, .nullResp)
  | .onRoute r =>
    match hooks.onSubscribeToRoute s cs r with
    | .ok s' =>
      (s', cs, [.dispatched id, .subscribeFired r],
       .value (new_MsgResponseOK id none))
    | .error _ => (s, cs, [.dispatched id], .thrown)
  | .offRoute r =>
    match hooks.onUnsubscribeFromRoute s cs r with
    | .ok s' =>
      (s', cs, [.dispatched id, .unsubscribeFired r],
       .value (new_MsgResponseOK id none))
    | .error _ => (s, cs, [.dispatched id], .thrown)
  | .route verb r d _hs =>
    let (s', resp) := handleRouteMessage hooks s cs id r verb d
    (s', cs, [.dispatched id, .routeMsgFired id r], .promise resp)
  | .other _ => (s, cs, [.dispatched id], .thrown)

/-- The tail of `handleMessage` after the dispatch switch: send the
response (or, in the catch branch, a generic 500) and append the dedup
record.  In the thrown case the local `response` variable is still null,
so the persisted response falls back to the 500 "No response" body. -/
def finishDispatch (now : Int) (cs : ConnState) (w : MsgWrapper)
    (out : DispatchOut) : ConnState × List Event :=
  let id := w.id
  let needsResponse := id ≠ -1
  match out with
  | .value r =>
    if needsResponse then
      let (cs, evs) := postAndForget now cs r
      ({ cs with receivedMessages := cs.receivedMessages ++ [⟨w, ⟨r, false⟩⟩] },
       evs)
    else (cs, [])
  | .promise r =>
    if needsResponse then
      let (cs, evs) := postAndForget now cs r
      ({ cs with receivedMessages := cs.receivedMessages ++ [⟨w, ⟨r, true⟩⟩] },
       evs)
    else (cs, [])
  | .nullResp =>
    if needsResponse then
      let r := new_MsgGenericError id "No response"
      let (cs, evs) := postAndForget now cs r
      ({ cs with receivedMessages := cs.receivedMessages ++ [⟨w, ⟨r, false⟩⟩] },
       evs)
    else (cs, [])
  | .thrown =>
    if needsResponse then
      let (cs, evs) := postAndForget now cs (new_MsgGenericError id "Error handling message")
      ({ cs with receivedMessages :=
          cs.receivedMessages ++
            [⟨w, ⟨new_MsgGenericError id "No response", false⟩⟩] }, evs)
    else (cs, [])

/-- Source `handleMessage`: dedup check, dispatch switch, response send and
dedup-record append. -/
def handleMessage {σ : Type} (hooks : Hooks σ) (now : Int) (s : σ)
    (cs : ConnState) (w : MsgWrapper) : σ × ConnState × List Event :=
  let id := w.id
  let needsResponse := id ≠ -1
  let alreadyReceived :=
    if needsResponse then getReceivedPairById cs.receivedMessages id else none
  match alreadyReceived with
  | some pair =>
    if pair.response.isPending then
      let (cs, evs) := postAndForget now cs
        (new_MsgResponseWithCode id 202 (.str "Message is being processed"))
      (s, cs, evs)
    else
      let (cs, evs) := postAndForget now cs pair.response.original
      (s, cs, evs)
  | none =>
    let (s, cs, evs0, out) := dispatchSwitch hooks s cs id w.msg
    let (cs, evs1) := finishDispatch now cs w out
    (s, cs, evs0 ++ evs1)

end Connection

/-- Abstract identity of a `Connection` object held by the router (the
JS directory stores object references; only reference equality is used). -/
abbrev ConnId := Nat

/-- One subscriber entry inside an outbound layer. -/
structure RouteListener where
  conn : String
  params : List String
deriving DecidableEq, Repr

/-- Result of an outbound layer's validator: a synchronous boolean or a
promise of one (the engine gates the send on the awaited value). -/
inductive ValidateResult where
  | sync (b : Bool)
  | async (b : Bool)
deriving DecidableEq, Repr

/-- An outbound route layer.  The compiled path matcher is the external
path-to-regexp collaborator, modelled by its `match` function returning
the positional captures (`Object.values(match.params)`); the validator
receives the connection looked up in the directory (possibly absent). -/
structure OutRouteLayer where
  id : Nat
  route : String
  matchFn : String → Option (List String)
  listeners : List RouteListener
  validate : Option ConnId → List String → ValidateResult

/-- Router state: the connection directory and the outbound layers
(inbound layers are not touched by the operations verified here). -/
structure Router where
  connections : List (String × ConnId)
  outRoutes : List OutRouteLayer

namespace Router

/-- Source `this.connections[secret]` (undefined when absent). -/
def lookupConn (rt : Router) (s : String) : Option ConnId :=
  (rt.connections.find? (fun kv => kv.1 = s)).map (fun kv => kv.2)

/-- Record update of the directory (used by the `onDataSet` wiring in
`addSocket` when the `secret` key arrives). -/
def recordSet (m : List (String × ConnId)) (k : String) (v : ConnId) :
    List (String × ConnId) :=
  if m.any (fun kv => kv.1 = k) then
    m.map (fun kv => if kv.1 = k then (k, v) else kv)
  else m ++ [(k, v)]

/-- Source `subscribeConnectionToRoute`: throws when the secret is not in the
directory; otherwise pushes a listener (with the captured params) onto
every outbound layer whose matcher accepts the path. -/
def subscribeConnectionToRoute (rt : Router) (path : String)
    (connSecret : String) : Except String Router :=
  if (lookupConn rt connSecret).isNone then
    .error ("Connection with id " ++ connSecret ++ " does not exist")
  else
    .ok { rt with outRoutes := rt.outRoutes.map (fun r =>
      match r.matchFn path with
      | some params => { r with listeners := r.listeners ++ [⟨connSecret, params⟩] }
      | none => r) }

/-- Source `unsubsctibeConnectionFromRoute` (source spelling): throws when the
secret is not in the directory; otherwise drops every listener of that
secret from every layer whose matcher accepts the path. -/
def unsubsctibeConnectionFromRoute (rt : Router) (path : String)
    (connSecret : String) : Except String Router :=
  if (lookupConn rt connSecret).isNone then
    .error ("Connection with id " ++ connSecret ++ " does not exist")
  else
    .ok { rt with outRoutes := rt.outRoutes.map (fun r =>
      match r.matchFn path with
      | some _ =>
        { r with listeners := r.listeners.filter (fun l => l.conn ≠ connSecret) }
      | none => r) }

/-- One delivered broadcast: `conn.sendToRoute(route, verb, payload)`. -/
structure BroadcastSend where
  conn : ConnId
  routePath : String
  verb : RouteVerb
  payload : Payload
deriving DecidableEq, Repr

/-- The prefix-wise parameter comparison of `internalBroadcast`: the loop
runs over the indices of the listener's stored vector only, so a stored
vector that is a proper prefix of the captured one still matches, and a
longer stored vector reads `undefined` past the end and fails. -/
def paramsMatch : List String → List String → Bool
  | [], _ => true
  | _ :: _, [] => false
  | a :: as, b :: bs => a = b && paramsMatch as bs

/-- Processing of one listener during a broadcast.  A listener whose
secret is missing from the directory and whose synchronous validator
passes makes `conn.sendToRoute` throw on `undefined`, aborting the whole
broadcast (`Except.error`); with an eventually-true asynchronous
validator the same access only rejects a detached promise, so the loop
continues and nothing is sent. -/
def listenerSend (rt : Router) (paramsArr : List String) (r : OutRouteLayer)
    (routePath : String) (verb : RouteVerb) (payload : Payload)
    (exceptConn : Option ConnId) (l : RouteListener) :
    Except Unit (List BroadcastSend) :=
  let conn := lookupConn rt l.conn
  if conn ≠ exceptConn then
    if paramsMatch l.params paramsArr then
      match r.validate conn paramsArr with
      | .sync b =>
        if b then
          match conn with
          | some c => .ok [⟨c, routePath, verb, payload⟩]
          | none => .error ()
        else .ok []
      | .async b =>
        if b then
          match conn with
          | some c => .ok [⟨c, routePath, verb, payload⟩]
          | none => .ok []
        else .ok []
    else .ok []
  else .ok []

def broadcastListeners (rt : Router) (paramsArr : List String)
    (r : OutRouteLayer) (routePath : String) (verb : RouteVerb)
    (payload : Payload) (exceptConn : Option ConnId) :
    List RouteListener → Except Unit (List BroadcastSend)
  | [] => .ok []
  | l :: ls =>
    match listenerSend rt paramsArr r routePath verb payload exceptConn l with
    | .error e => .error e
    | .ok s =>
      match broadcastListeners rt paramsArr r routePath verb payload exceptConn ls with
      | .error e => .error e
      | .ok rest => .ok (s ++ rest)

/-- Fan-out over one outbound layer: nothing when the matcher rejects
the path, otherwise the listener loop. -/
def broadcastLayer (rt : Router) (routePath : String) (verb : RouteVerb)
    (payload : Payload) (exceptConn : Option ConnId) (r : OutRouteLayer) :
    Except Unit (List BroadcastSend) :=
  match r.matchFn routePath with
  | some paramsArr =>
    broadcastListeners rt paramsArr r routePath verb payload exceptConn r.listeners
  | none => .ok []

def broadcastLayers (rt : Router) (routePath : String) (verb : RouteVerb)
    (payload : Payload) (exceptConn : Option ConnId) :
    List OutRouteLayer → Except Unit (List BroadcastSend)
  | [] => .ok []
  | r :: rs =>
    match broadcastLayer rt routePath verb payload exceptConn r with
    | .error e => .error e
    | .ok here =>
      match broadcastLayers rt routePath verb payload exceptConn rs with
      | .error e => .error e
      | .ok rest => .ok (here ++ rest)

/-- Source `internalBroadcast`: fan a payload out over every outbound layer
whose matcher accepts the path. -/
def internalBroadcast (rt : Router) (routePath : String) (verb : RouteVerb)
    (payload : Payload) (exceptConn : Option ConnId) :
    Except Unit (List BroadcastSend) :=
  broadcastLayers rt routePath verb payload exceptConn rt.outRoutes

def broadcastPost (rt : Router) (routePath : String) (payload : Payload)
    (exceptConn : Option ConnId) : Except Unit (List BroadcastSend) :=
  internalBroadcast rt routePath .POST payload exceptConn

def broadcastDeletion (rt : Router) (routePath : String) (payload : Payload)
    (exceptConn : Option ConnId) : Except Unit (List BroadcastSend) :=
  internalBroadcast rt routePath .DELETE payload exceptConn

def broadcastUpdate (rt : Router) (routePath : String) (payload : Payload)
    (exceptConn : Option ConnId) : Except Unit (List BroadcastSend) :=
  internalBroadcast rt routePath .UPDATE payload exceptConn

/-- Source `removeConnection`.  The source deletes the directory entry and then
evaluates `route.listeners.filter(l => l.conn !== connSecret)` for each
outbound layer *without assigning the result back*, so the listener
lists are left unchanged. -/
def removeConnection (rt : Router) (connSecret : String) : Router :=
  { rt with connections := rt.connections.filter (fun kv => kv.1 ≠ connSecret) }

/-- A payload used as a directory key (the handshake always sends the
secret as a string; any other payload would be coerced by JS, a case the
protocol never produces). -/
def payloadToKey : Payload → String
  | .str s => s
  | _ => ""

/-- The hooks `addSocket` wires into a fresh server connection, with
`self` the identity of that connection.  Inbound route dispatch (over the
inbound layers) is not among the verified operations; its hook leaves the
router unchanged and produces no response. -/
def routerHooks (self : ConnId) : Hooks Router where
  onDataSet := fun rt _cs k v =>
    if k = "secret" then
      { rt with connections := recordSet rt.connections (payloadToKey v) self }
    else rt
  onSubscribeToRoute := fun rt cs r =>
    subscribeConnectionToRoute rt r (Connection.getSecret cs)
  onUnsubscribeFromRoute := fun rt cs r =>
    unsubsctibeConnectionFromRoute rt r (Connection.getSecret cs)
  onRouteMessage := fun rt _cs _id _r _v _d => (rt, none)

end Router

/-! ### Specification-side definitions, hooks and concrete fixtures -/

namespace Connection

/-- ids of the retry log. -/
def ackIds (l : List SentMessages) : List Int := l.map (fun m => m.wrappedMsg.id)

end Connection

/-- Trivial hooks over a unit hook state (a connection with the default
no-op handlers installed). -/
def unitHooks : Hooks Unit where
  onDataSet := fun _ _ _ _ => ()
  onSubscribeToRoute := fun _ _ _ => .ok ()
  onUnsubscribeFromRoute := fun _ _ _ => .ok ()
  onRouteMessage := fun _ _ _ _ _ _ => ((), none)

/-- A freshly constructed, connected server-side connection state. -/
def csBase : ConnState :=
  { nextMsgId := 0, isClient := false, messagesToAck := [], receivedMessages := [],
    messagesToSendAfterReconnect := [], callbacks := [], messagesSentInASecond := 0,
    header := [("secret", .str "")], connected := true }

/-- A connection that has sent message 3 and registered a callback for it. -/
def csAck : ConnState :=
  { csBase with
    callbacks := [3],
    messagesToAck := [⟨⟨3, .ping⟩, 0, 1⟩] }

/-- A connection state whose rate counter already exceeds the limit. -/
def csHot : ConnState :=
  { csBase with
    messagesSentInASecond := 101 }

/-- A retry log holding entries for ids 3 and 4. -/
def ackTwo : List SentMessages := [⟨⟨3, .ping⟩, 0, 1⟩, ⟨⟨4, .ping⟩, 0, 1⟩]

def Event.isDispatched : Event → Bool
  | .dispatched _ => true
  | _ => false

/-- A dedup record for id 7 whose tracked response is still pending. -/
def pendingPair : ReceivedPair :=
  ⟨⟨7, .route .POST "/x" (.str "d") []⟩, ⟨.res 7 200 (.str "OK"), true⟩⟩

/-- The same dedup record once the tracked response has settled. -/
def settledPair : ReceivedPair :=
  ⟨⟨7, .route .POST "/x" (.str "d") []⟩, ⟨.res 7 200 (.str "OK"), false⟩⟩

def csDupPending : ConnState :=
  { csBase with
    receivedMessages := [pendingPair] }

def csDupSettled : ConnState :=
  { csBase with
    receivedMessages := [settledPair] }

def csAfterBogus : ConnState :=
  { csBase with
    receivedMessages :=
      [⟨⟨5, .other "bogus"⟩, ⟨new_MsgGenericError 5 "No response", false⟩⟩] }

/-- C3 counterexample: a connection whose secret is already the
non-empty "abc". -/
def csSecret : ConnState :=
  { csBase with
    header := [("secret", .str "abc")] }

/-- A router with an empty directory and no outbound layers. -/
def rtEmpty : Router := ⟨[], []⟩

/-- An outbound layer for `/t/:id` with one listener for secret "s". -/
def layer7 : OutRouteLayer :=
  { id := 0, route := "/t/:id",
    matchFn := fun p => if p = "/t/1" then some ["1"] else none,
    listeners := [⟨"s", ["1"]⟩],
    validate := fun _ _ => .sync true }

def rt7 : Router := ⟨[("s", 0)], [layer7]⟩

/-- A router with a layer matching `/t/1` that already holds a listener
for secret "s". -/
def rt8 : Router := ⟨[("s", 0)], [layer7]⟩

/-- The per-layer effect of a subscription on a matching layer. -/
def subAddFn (r s : String) : OutRouteLayer → OutRouteLayer := fun layer =>
  match layer.matchFn r with
  | some params => { layer with listeners := layer.listeners ++ [⟨s, params⟩] }
  | none => layer

/-- The per-layer effect of an unsubscription on a matching layer. -/
def subDelFn (r s : String) : OutRouteLayer → OutRouteLayer := fun layer =>
  match layer.matchFn r with
  | some _ =>
    { layer with listeners := layer.listeners.filter (fun l => l.conn ≠ s) }
  | none => layer

/-- A layer matching `/t/1` with no listeners yet. -/
def layer8 : OutRouteLayer :=
  { layer7 with
    listeners := [] }

def rt8b : Router := ⟨[("s", 0)], [layer8]⟩

def validateTruthy : ValidateResult → Bool
  | .sync b => b
  | .async b => b

/-- The delivery set the specification describes (with the parameter
comparison amended to the positional-prefix check the code performs):
for every layer accepting the path, exactly the listeners distinct from
`exceptConn`, whose stored vector is a prefix of the captured one, and
whose validator is (eventually) truthy. -/
def broadcastSpec (rt : Router) (routePath : String) (verb : RouteVerb)
    (payload : Payload) (exceptConn : Option ConnId) : List Router.BroadcastSend :=
  rt.outRoutes.flatMap (fun r =>
    match r.matchFn routePath with
    | none => []
    | some paramsArr =>
      (r.listeners.filter (fun l =>
        Router.lookupConn rt l.conn ≠ exceptConn &&
        Router.paramsMatch l.params paramsArr &&
        validateTruthy (r.validate (Router.lookupConn rt l.conn) paramsArr))).filterMap
        (fun l => (Router.lookupConn rt l.conn).map
          (fun c => Router.BroadcastSend.mk c routePath verb payload)))

/-- An outbound layer whose pattern has an optional parameter: matching
`/t` captures no params, matching `/t/1` captures one.  The listener
subscribed to `/t`, so its stored vector is `[]`. -/
def layerOpt : OutRouteLayer :=
  { id := 0, route := "/t/:id?",
    matchFn := fun p =>
      if p = "/t" then some [] else if p = "/t/1" then some ["1"] else none,
    listeners := [⟨"A", []⟩],
    validate := fun _ _ => .sync true }

def rtOpt : Router := ⟨[("A", 0)], [layerOpt]⟩

/-! ### Supporting lemmas -/

namespace Connection

theorem erasePAck_eq_filter (id : Int) :
    ∀ (l : List SentMessages), (ackIds l).Nodup →
      l.eraseP (fun m => m.wrappedMsg.id == id) =
        l.filter (fun m => m.wrappedMsg.id ≠ id) := by
  intro l h
  induction l with
  | nil => rfl
  | cons a as ih =>
    simp only [ackIds, List.map_cons, List.nodup_cons] at h
    by_cases hfa : a.wrappedMsg.id = id
    · rw [List.eraseP_cons_of_pos (by simp [hfa]), List.filter_cons_of_neg (by simp [hfa])]
      symm
      apply List.filter_eq_self.mpr
      intro x hx
      have hne : x.wrappedMsg.id ≠ a.wrappedMsg.id := by
        intro hEq
        exact h.1 (hEq ▸ List.mem_map.mpr ⟨x, hx, rfl⟩)
      simp [hfa ▸ hne]
    · rw [List.eraseP_cons_of_neg (by simp [hfa]), List.filter_cons_of_pos (by simp [hfa])]
      rw [ih h.2]

theorem removeMessageToAck_eq_filter (l : List SentMessages) (id : Int)
    (h : (ackIds l).Nodup) :
    removeMessageToAck l id = l.filter (fun m => m.wrappedMsg.id ≠ id) := by
  have hrev : (ackIds l.reverse).Nodup := by
    simpa [ackIds, List.map_reverse] using h
  rw [removeMessageToAck, erasePAck_eq_filter id l.reverse hrev]
  simp [List.filter_reverse]

theorem contains_filter_ne (l : List Int) (t : Int) (h : t ∉ l) :
    l.filter (fun k => k ≠ t) = l := by
  apply List.filter_eq_self.mpr
  intro x hx
  have : ¬x = t := fun hEq => h (hEq ▸ hx)
  simp [this]

theorem mem_filter_ne_id {l : List SentMessages} {id : Int} {m : SentMessages}
    (hm : m ∈ l.filter (fun x => x.wrappedMsg.id ≠ id)) : m.wrappedMsg.id ≠ id := by
  have := (List.mem_filter.mp hm).2
  simpa using this

theorem handleResponse_eq_of_mem (cs : ConnState) (target status : Int) (d : Payload)
    (hstatus : status ≠ 202) (hcb : target ∈ cs.callbacks) :
    handleResponse cs target status d =
      ({ cs with callbacks := cs.callbacks.filter (fun k => k ≠ target),
                 messagesToAck := removeMessageToAck cs.messagesToAck target },
       [Event.cbInvoked target
          (if status = 200 then new_RouteResponse d else new_RouteResponseError d)]) := by
  unfold handleResponse
  rw [if_neg hstatus]
  simp [hcb]

theorem handleResponse_eq_of_not_mem (cs : ConnState) (target status : Int) (d : Payload)
    (hstatus : status ≠ 202) (hcb : target ∉ cs.callbacks) :
    handleResponse cs target status d =
      ({ cs with messagesToAck := removeMessageToAck cs.messagesToAck target }, []) := by
  unfold handleResponse
  rw [if_neg hstatus]
  simp [hcb]

/-- Source `sendWrappedMsg` only touches the retry log and emits the send. -/
theorem sendWrappedMsg_spec (now : Int) (cs : ConnState) (w : MsgWrapper)
    (sentIdx : Int) :
    ∃ ack, sendWrappedMsg now cs w sentIdx =
      ({ cs with messagesToAck := ack }, [.sent w]) := by
  unfold sendWrappedMsg
  by_cases hn : messageNeedsAck w
  · by_cases hC : (if sentIdx = -1 then findLastAckIdx cs.messagesToAck w.id
        else sentIdx) = -1
    · refine ⟨cs.messagesToAck ++ [⟨w, now, 1⟩], ?_⟩
      simp only [hn, hC, if_true, ite_true]
    · refine ⟨bumpAt cs.messagesToAck
        (if sentIdx = -1 then findLastAckIdx cs.messagesToAck w.id else sentIdx) now, ?_⟩
      simp only [hn, hC, if_true, ite_true, if_false, ite_false]
  · refine ⟨cs.messagesToAck, ?_⟩
    simp only [hn, Bool.false_eq_true, if_false, ite_false]

/-- A send-and-forget envelope never needs an acknowledgement, so
`postAndForget` leaves the state unchanged and emits the send exactly
when the transport is connected. -/
theorem postAndForget_eq (now : Int) (cs : ConnState) (msg : MsgType) :
    postAndForget now cs msg =
      (cs, if cs.connected then [.sent ⟨-1, msg⟩] else []) := by
  unfold postAndForget sendWrappedMsg new_SendAndForgetMsgWrapper messageNeedsAck
  by_cases hc : cs.connected <;> simp [hc]

/-- Source `postAndExpectResponse` on a non-response body: allocate the current
`nextMsgId`, send while connected (touching only the retry log) or queue
for reconnect otherwise. -/
theorem postAndExpectResponse_spec (now : Int) (cs : ConnState) (msg : MsgType)
    (hm : msg.isRes = false) :
    ∃ ack q,
      postAndExpectResponse now cs msg =
        .ok ({ cs with
                nextMsgId := cs.nextMsgId + 1,
                messagesToAck := ack,
                messagesToSendAfterReconnect := q },
             cs.nextMsgId,
             if cs.connected then [.sent ⟨cs.nextMsgId, msg⟩] else []) ∧
      (cs.connected = true → q = cs.messagesToSendAfterReconnect) ∧
      (cs.connected = false → ack = cs.messagesToAck ∧
        q = cs.messagesToSendAfterReconnect ++ [⟨cs.nextMsgId, msg⟩]) := by
  unfold postAndExpectResponse
  by_cases hc : cs.connected
  · obtain ⟨ack, hack⟩ := sendWrappedMsg_spec now
      { cs with nextMsgId := cs.nextMsgId + 1 } ⟨cs.nextMsgId, msg⟩ (-1)
    simp only [hc] at hack
    refine ⟨ack, cs.messagesToSendAfterReconnect, ?_, fun _ => rfl,
      fun hf => absurd hc (by simp [hf])⟩
    simp only [hm, Bool.false_eq_true, if_false, ite_false, hc, if_true, ite_true,
      new_MsgWrapper, hack]
  · refine ⟨cs.messagesToAck, cs.messagesToSendAfterReconnect ++ [⟨cs.nextMsgId, msg⟩],
      ?_, fun ht => absurd ht hc, fun _ => ⟨rfl, rfl⟩⟩
    simp only [hm, Bool.false_eq_true, if_false, ite_false, hc, new_MsgWrapper]

theorem findLastAckIdxAux_eq_none_iff (id : Int) :
    ∀ (l : List SentMessages),
      findLastAckIdxAux id l = none ↔ ∀ m ∈ l, m.wrappedMsg.id ≠ id := by
  intro l
  induction l with
  | nil => simp [findLastAckIdxAux]
  | cons a as ih =>
    unfold findLastAckIdxAux
    match haux : findLastAckIdxAux id as with
    | some j =>
      simp only [haux]
      constructor
      · intro h; exact absurd h (by simp)
      · intro h
        have hall : ∀ m ∈ as, m.wrappedMsg.id ≠ id := fun m hm => h m (List.mem_cons_of_mem a hm)
        rw [ih.mpr hall] at haux
        exact absurd haux (by simp)
    | none =>
      simp only [haux]
      by_cases ha : a.wrappedMsg.id = id
      · simp only [ha, if_true, ite_true]
        constructor
        · intro h; exact absurd h (by simp)
        · intro h; exact absurd ha (h a (List.mem_cons_self a as))
      · simp only [ha, if_false, ite_false]
        constructor
        · intro _ m hm
          rcases List.mem_cons.mp hm with hma | hmas
          · exact hma ▸ ha
          · exact (ih.mp haux) m hmas
        · intro _; trivial

theorem findLastAckIdx_eq_neg_one_iff (l : List SentMessages) (id : Int) :
    findLastAckIdx l id = -1 ↔ ∀ m ∈ l, m.wrappedMsg.id ≠ id := by
  unfold findLastAckIdx
  match haux : findLastAckIdxAux id l with
  | none =>
    constructor
    · intro _; exact (findLastAckIdxAux_eq_none_iff id l).mp haux
    · intro _; rfl
  | some j =>
    constructor
    · intro h
      exfalso
      simp only [] at h
      omega
    · intro h
      rw [(findLastAckIdxAux_eq_none_iff id l).mpr h] at haux
      exact absurd haux (by simp)

theorem set_bump_map (now : Int) :
    ∀ (l : List SentMessages) (n : Nat) (m : SentMessages), l[n]? = some m →
      (l.set n ⟨m.wrappedMsg, now, m.sentAmount + 1⟩).map (fun x => x.wrappedMsg) =
        l.map (fun x => x.wrappedMsg) := by
  intro l
  induction l with
  | nil => intro n m h; simp at h
  | cons a as ih =>
    intro n m h
    match n with
    | 0 =>
      simp only [List.getElem?_cons_zero, Option.some_inj] at h
      subst h
      simp [List.set]
    | n + 1 =>
      simp only [List.getElem?_cons_succ] at h
      simp [List.set, ih n m h]

theorem bumpAt_ackIds (now : Int) (l : List SentMessages) (i : Int) :
    ackIds (bumpAt l i now) = ackIds l := by
  have hmap : (bumpAt l i now).map (fun m => m.wrappedMsg) = l.map (fun m => m.wrappedMsg) := by
    unfold bumpAt
    by_cases h0 : 0 ≤ i
    · simp only [h0, if_true, ite_true]
      match hget : l[i.toNat]? with
      | none => rfl
      | some m => exact set_bump_map now l i.toNat m hget
    · simp [h0]
  have : ackIds (bumpAt l i now) =
      ((bumpAt l i now).map (fun m => m.wrappedMsg)).map (fun w => w.id) := by
    simp [ackIds, List.map_map]
  rw [this, hmap]
  simp [ackIds, List.map_map]

/-- A duplicate delivery whose tracked response is still pending answers
202 and changes nothing. -/
theorem handleMessage_duplicate_pending {σ : Type} (hooks : Hooks σ) (now : Int)
    (s : σ) (cs : ConnState) (w : MsgWrapper) (pair : ReceivedPair)
    (hne : w.id ≠ -1)
    (hdup : getReceivedPairById cs.receivedMessages w.id = some pair)
    (hpend : pair.response.isPending = true) :
    handleMessage hooks now s cs w =
      (s, cs, if cs.connected then
        [.sent ⟨-1, new_MsgResponseWithCode w.id 202 (.str "Message is being processed")⟩]
      else []) := by
  unfold handleMessage
  simp only [hdup, postAndForget_eq]
  rw [if_pos hne]
  simp only [hpend, if_true, ite_true]

/-- A duplicate delivery whose tracked response has settled re-sends the
original cached response and changes nothing. -/
theorem handleMessage_duplicate_settled {σ : Type} (hooks : Hooks σ) (now : Int)
    (s : σ) (cs : ConnState) (w : MsgWrapper) (pair : ReceivedPair)
    (hne : w.id ≠ -1)
    (hdup : getReceivedPairById cs.receivedMessages w.id = some pair)
    (hpend : pair.response.isPending = false) :
    handleMessage hooks now s cs w =
      (s, cs, if cs.connected then
        [.sent ⟨-1, pair.response.original⟩] else []) := by
  unfold handleMessage
  simp only [hdup, postAndForget_eq]
  rw [if_pos hne]
  simp only [hpend, Bool.false_eq_true, if_false, ite_false]

/-- Source `handleResponse` only touches callbacks and the retry log, and its
events never include a dispatch marker. -/
theorem handleResponse_spec (cs : ConnState) (t st : Int) (d : Payload) :
    ∃ cb ack evs, handleResponse cs t st d =
      ({ cs with callbacks := cb, messagesToAck := ack }, evs) ∧
      evs.countP Event.isDispatched = 0 := by
  by_cases h2 : st = 202
  · subst h2
    exact ⟨cs.callbacks, cs.messagesToAck, [], by simp [handleResponse], rfl⟩
  · by_cases hm : t ∈ cs.callbacks
    · exact ⟨cs.callbacks.filter (fun k => k ≠ t), removeMessageToAck cs.messagesToAck t,
        [Event.cbInvoked t (if st = 200 then new_RouteResponse d else new_RouteResponseError d)],
        handleResponse_eq_of_mem cs t st d h2 hm, rfl⟩
    · exact ⟨cs.callbacks, removeMessageToAck cs.messagesToAck t, [],
        handleResponse_eq_of_not_mem cs t st d h2 hm, rfl⟩

/-- The dispatch switch emits exactly one dispatch marker and leaves the
dedup log and the connectivity flag untouched. -/
theorem dispatchSwitch_spec {σ : Type} (hooks : Hooks σ) (s : σ) (cs : ConnState)
    (id : Int) (m : MsgType) :
    ((dispatchSwitch hooks s cs id m).2.2.1).countP Event.isDispatched = 1 ∧
    (dispatchSwitch hooks s cs id m).2.1.receivedMessages = cs.receivedMessages ∧
    (dispatchSwitch hooks s cs id m).2.1.connected = cs.connected := by
  cases m with
  | dataSet k v => exact ⟨rfl, rfl, rfl⟩
  | ping => exact ⟨rfl, rfl, rfl⟩
  | res t st d =>
    obtain ⟨cb, ack, evs, heq, hcnt⟩ := handleResponse_spec cs t st d
    refine ⟨?_, ?_, ?_⟩ <;>
      simp [dispatchSwitch, heq, List.countP_cons, hcnt, Event.isDispatched]
  | onRoute r =>
    match hs : hooks.onSubscribeToRoute s cs r with
    | .ok s' => refine ⟨?_, ?_, ?_⟩ <;> (simp only [dispatchSwitch, hs]; try rfl)
    | .error e => refine ⟨?_, ?_, ?_⟩ <;> (simp only [dispatchSwitch, hs]; try rfl)
  | offRoute r =>
    match hs : hooks.onUnsubscribeFromRoute s cs r with
    | .ok s' => refine ⟨?_, ?_, ?_⟩ <;> (simp only [dispatchSwitch, hs]; try rfl)
    | .error e => refine ⟨?_, ?_, ?_⟩ <;> (simp only [dispatchSwitch, hs]; try rfl)
  | route verb r d hs =>
    match hp : hooks.onRouteMessage s cs id r verb d with
    | (s', resp) =>
      refine ⟨?_, ?_, ?_⟩ <;>
        (simp only [dispatchSwitch, handleRouteMessage, hp]; try rfl)
  | other tag => exact ⟨rfl, rfl, rfl⟩

/-- For an envelope that needs a response, the tail of `handleMessage`
appends exactly one dedup record for it and emits no dispatch marker. -/
theorem finishDispatch_spec (now : Int) (cs : ConnState) (w : MsgWrapper)
    (out : DispatchOut) (hne : w.id ≠ -1) :
    ∃ tr evs, finishDispatch now cs w out =
      ({ cs with receivedMessages := cs.receivedMessages ++ [⟨w, tr⟩] }, evs) ∧
      evs.countP Event.isDispatched = 0 := by
  cases out with
  | value r =>
    refine ⟨⟨r, false⟩, if cs.connected then [.sent ⟨-1, r⟩] else [], ?_, ?_⟩
    · unfold finishDispatch
      simp only [postAndForget_eq]
      rw [if_pos hne]
    · by_cases hc : cs.connected <;> simp [hc, Event.isDispatched]
  | promise r =>
    refine ⟨⟨r, true⟩, if cs.connected then [.sent ⟨-1, r⟩] else [], ?_, ?_⟩
    · unfold finishDispatch
      simp only [postAndForget_eq]
      rw [if_pos hne]
    · by_cases hc : cs.connected <;> simp [hc, Event.isDispatched]
  | nullResp =>
    refine ⟨⟨new_MsgGenericError w.id "No response", false⟩,
      if cs.connected then [.sent ⟨-1, new_MsgGenericError w.id "No response"⟩] else [],
      ?_, ?_⟩
    · unfold finishDispatch
      simp only [postAndForget_eq]
      rw [if_pos hne]
    · by_cases hc : cs.connected <;> simp [hc, Event.isDispatched]
  | thrown =>
    refine ⟨⟨new_MsgGenericError w.id "No response", false⟩,
      if cs.connected then
        [.sent ⟨-1, new_MsgGenericError w.id "Error handling message"⟩] else [],
      ?_, ?_⟩
    · unfold finishDispatch
      simp only [postAndForget_eq]
      rw [if_pos hne]
    · by_cases hc : cs.connected <;> simp [hc, Event.isDispatched]

/-- The freshly appended dedup record is the one a later lookup finds. -/
theorem getReceivedPairById_append (l : List ReceivedPair) (p : ReceivedPair) :
    getReceivedPairById (l ++ [p]) p.wrapper.id = some p := by
  unfold getReceivedPairById
  rw [List.reverse_append]
  simp [List.find?_cons_of_pos]

/-- The fresh-id path of `handleMessage`: exactly one dispatch marker and
one new dedup record. -/
theorem handleMessage_fresh_spec {σ : Type} (hooks : Hooks σ) (now : Int)
    (s : σ) (cs : ConnState) (w : MsgWrapper) (hne : w.id ≠ -1)
    (hfresh : getReceivedPairById cs.receivedMessages w.id = none) :
    ((handleMessage hooks now s cs w).2.2).countP Event.isDispatched = 1 ∧
    ∃ tr, (handleMessage hooks now s cs w).2.1.receivedMessages =
        cs.receivedMessages ++ [⟨w, tr⟩] := by
  rcases hd : dispatchSwitch hooks s cs w.id w.msg with ⟨s1, cs1, evs0, out⟩
  rcases hf : finishDispatch now cs1 w out with ⟨cs2, evs1⟩
  have hmain : handleMessage hooks now s cs w = (s1, cs2, evs0 ++ evs1) := by
    unfold handleMessage
    simp only [hfresh, ite_self, hd, hf]
  have hspec := dispatchSwitch_spec hooks s cs w.id w.msg
  rw [hd] at hspec
  obtain ⟨hcnt, hrm, _⟩ := hspec
  obtain ⟨tr, evs, hfin, hfcnt⟩ := finishDispatch_spec now cs1 w out hne
  rw [hf] at hfin
  injection hfin with hfin1 hfin2
  constructor
  · rw [hmain]
    simp only [List.countP_append]
    simp only at hcnt
    rw [hcnt, hfin2, hfcnt]
  · refine ⟨tr, ?_⟩
    rw [hmain]
    simp only [hfin1]
    simp only at hrm
    rw [hrm]

/-- The unknown-body case: the switch throws, the catch sends the
generic 500 error, and the persisted tracked response is the distinct
"No response" fallback. -/
theorem handleMessage_unknown_eq {σ : Type} (hooks : Hooks σ) (now : Int)
    (s : σ) (cs : ConnState) (id : Int) (tag : String) (hne : id ≠ -1)
    (hc : cs.connected = true)
    (hfresh : getReceivedPairById cs.receivedMessages id = none) :
    handleMessage hooks now s cs ⟨id, .other tag⟩ =
      (s, { cs with receivedMessages := cs.receivedMessages ++
            [⟨⟨id, .other tag⟩, ⟨new_MsgGenericError id "No response", false⟩⟩] },
       [.dispatched id, .sent ⟨-1, new_MsgGenericError id "Error handling message"⟩]) := by
  unfold handleMessage dispatchSwitch finishDispatch
  simp only [hfresh, ite_self, postAndForget_eq, hc, if_true, ite_true]
  rw [if_pos hne]
  simp [hc]

theorem getHeader_map_set_ne (k k' : String) (v : Payload) (hne : k' ≠ k) :
    ∀ (h : List (String × Payload)),
      getHeader (h.map (fun kv => if kv.1 = k then (k, v) else kv)) k' =
        getHeader h k' := by
  intro h
  induction h with
  | nil => rfl
  | cons a as ih =>
    by_cases hak : a.1 = k
    · unfold getHeader
      rw [List.map_cons, if_pos hak]
      rw [List.find?_cons_of_neg _ (by simp [Ne.symm hne]),
        List.find?_cons_of_neg _ (by simp [hak, Ne.symm hne])]
      exact ih
    · unfold getHeader
      rw [List.map_cons, if_neg hak]
      by_cases ha' : a.1 = k'
      · rw [List.find?_cons_of_pos _ (by simp [ha']),
          List.find?_cons_of_pos _ (by simp [ha'])]
      · rw [List.find?_cons_of_neg _ (by simp [ha']),
          List.find?_cons_of_neg _ (by simp [ha'])]
        exact ih

theorem getHeader_append_single_ne (h : List (String × Payload)) (k k' : String)
    (v : Payload) (hne : k' ≠ k) :
    getHeader (h ++ [(k, v)]) k' = getHeader h k' := by
  induction h with
  | nil =>
    unfold getHeader
    rw [List.nil_append, List.find?_cons_of_neg _ (by simp [Ne.symm hne])]
  | cons a as ih =>
    unfold getHeader
    rw [List.cons_append]
    by_cases ha' : a.1 = k'
    · rw [List.find?_cons_of_pos _ (by simp [ha']),
        List.find?_cons_of_pos _ (by simp [ha'])]
    · rw [List.find?_cons_of_neg _ (by simp [ha']),
        List.find?_cons_of_neg _ (by simp [ha'])]
      exact ih

/-- Writing any header key other than `k'` leaves the `k'` entry alone. -/
theorem getHeader_setHeader_ne (h : List (String × Payload)) (k k' : String)
    (v : Payload) (hne : k' ≠ k) :
    getHeader (setHeader h k v) k' = getHeader h k' := by
  unfold setHeader
  by_cases hany : h.any (fun kv => kv.1 = k)
  · rw [if_pos hany]
    exact getHeader_map_set_ne k k' v hne h
  · rw [if_neg hany]
    exact getHeader_append_single_ne h k k' v hne

theorem finishDispatch_header (now : Int) (cs : ConnState) (w : MsgWrapper)
    (out : DispatchOut) : (finishDispatch now cs w out).1.header = cs.header := by
  unfold finishDispatch
  cases out <;> (simp only [postAndForget_eq]; split <;> rfl)

theorem dispatchSwitch_header_secret {σ : Type} (hooks : Hooks σ) (s : σ)
    (cs : ConnState) (id : Int) (m : MsgType)
    (hmsg : ∀ v : Payload, m ≠ .dataSet "secret" v) :
    getHeader ((dispatchSwitch hooks s cs id m).2.1).header "secret" =
      getHeader cs.header "secret" := by
  cases m with
  | dataSet k v =>
    have hk : k ≠ "secret" := by
      intro hkk
      exact hmsg v (by rw [hkk])
    have : ((dispatchSwitch hooks s cs id (.dataSet k v)).2.1).header =
        setHeader cs.header k v := rfl
    rw [this]
    exact getHeader_setHeader_ne cs.header k "secret" v (fun hh => hk hh.symm)
  | ping => rfl
  | res t st d =>
    obtain ⟨cb, ack, evs, heq, _⟩ := handleResponse_spec cs t st d
    simp only [dispatchSwitch, heq]
  | onRoute r =>
    match hs : hooks.onSubscribeToRoute s cs r with
    | .ok s' => simp only [dispatchSwitch, hs]
    | .error e => simp only [dispatchSwitch, hs]
  | offRoute r =>
    match hs : hooks.onUnsubscribeFromRoute s cs r with
    | .ok s' => simp only [dispatchSwitch, hs]
    | .error e => simp only [dispatchSwitch, hs]
  | route verb r d hs =>
    match hp : hooks.onRouteMessage s cs id r verb d with
    | (s', resp) => simp only [dispatchSwitch, handleRouteMessage, hp]
  | other tag => rfl

/-- When no dedup record matches (or the envelope is send-and-forget),
`handleMessage` is the dispatch switch followed by the response tail. -/
theorem handleMessage_fresh_eq {σ : Type} (hooks : Hooks σ) (now : Int) (s : σ)
    (cs : ConnState) (w : MsgWrapper)
    (hfresh : w.id = -1 ∨ getReceivedPairById cs.receivedMessages w.id = none) :
    handleMessage hooks now s cs w =
      ((dispatchSwitch hooks s cs w.id w.msg).1,
       (finishDispatch now (dispatchSwitch hooks s cs w.id w.msg).2.1 w
          (dispatchSwitch hooks s cs w.id w.msg).2.2.2).1,
       (dispatchSwitch hooks s cs w.id w.msg).2.2.1 ++
         (finishDispatch now (dispatchSwitch hooks s cs w.id w.msg).2.1 w
            (dispatchSwitch hooks s cs w.id w.msg).2.2.2).2) := by
  unfold handleMessage
  rcases hfresh with hid | hnone
  · rw [hid]
    simp only [ne_eq, not_true_eq_false, if_false, ite_false, reduceIte]
  · simp only [hnone, ite_self]

/-- An `on` envelope whose subscription hook throws takes the catch
path: generic 500 to the peer, "No response" persisted, hook state
untouched. -/
theorem handleMessage_onRoute_throw_eq {σ : Type} (hooks : Hooks σ) (now : Int)
    (s : σ) (cs : ConnState) (id : Int) (r e : String) (hne : id ≠ -1)
    (hc : cs.connected = true)
    (hfresh : getReceivedPairById cs.receivedMessages id = none)
    (hthrow : hooks.onSubscribeToRoute s cs r = .error e) :
    handleMessage hooks now s cs ⟨id, .onRoute r⟩ =
      (s, { cs with receivedMessages := cs.receivedMessages ++
            [⟨⟨id, .onRoute r⟩, ⟨new_MsgGenericError id "No response", false⟩⟩] },
       [.dispatched id,
        .sent ⟨-1, new_MsgGenericError id "Error handling message"⟩]) := by
  unfold handleMessage dispatchSwitch finishDispatch
  simp only [hfresh, ite_self, hthrow, postAndForget_eq, hc, if_true, ite_true]
  rw [if_pos hne]
  simp [hc]

end Connection

namespace Router

theorem listenerSend_ok (rt : Router) (paramsArr : List String)
    (r : OutRouteLayer) (routePath : String) (verb : RouteVerb)
    (payload : Payload) (exceptConn : Option ConnId) (l : RouteListener)
    (c : ConnId) (hl : lookupConn rt l.conn = some c) :
    listenerSend rt paramsArr r routePath verb payload exceptConn l =
      .ok (if (some c : Option ConnId) ≠ exceptConn ∧
            paramsMatch l.params paramsArr = true ∧
            validateTruthy (r.validate (some c) paramsArr) = true
           then [BroadcastSend.mk c routePath verb payload] else []) := by
  unfold listenerSend
  rw [hl]
  by_cases hexc : (some c : Option ConnId) ≠ exceptConn
  · rw [if_pos hexc]
    by_cases hpm : paramsMatch l.params paramsArr = true
    · rw [if_pos hpm]
      cases hv : r.validate (some c) paramsArr with
      | sync b =>
        cases b with
        | true =>
          rw [if_pos ⟨hexc, hpm, rfl⟩]
          simp
        | false =>
          rw [if_neg (by
            rintro ⟨-, -, hvt⟩
            exact absurd hvt (by simp [validateTruthy]))]
          simp
      | async b =>
        cases b with
        | true =>
          rw [if_pos ⟨hexc, hpm, rfl⟩]
          simp
        | false =>
          rw [if_neg (by
            rintro ⟨-, -, hvt⟩
            exact absurd hvt (by simp [validateTruthy]))]
          simp
    · rw [if_neg hpm, if_neg (by rintro ⟨-, hpm2, -⟩; exact hpm hpm2)]
  · rw [if_neg hexc, if_neg (by rintro ⟨hexc2, -, -⟩; exact hexc hexc2)]

theorem broadcastListeners_ok (rt : Router) (paramsArr : List String)
    (r : OutRouteLayer) (routePath : String) (verb : RouteVerb)
    (payload : Payload) (exceptConn : Option ConnId) :
    ∀ ls : List RouteListener,
      (∀ l ∈ ls, (lookupConn rt l.conn).isSome = true) →
      broadcastListeners rt paramsArr r routePath verb payload exceptConn ls =
        .ok ((ls.filter (fun l =>
            lookupConn rt l.conn ≠ exceptConn &&
            paramsMatch l.params paramsArr &&
            validateTruthy (r.validate (lookupConn rt l.conn) paramsArr))).filterMap
          (fun l => (lookupConn rt l.conn).map
            (fun c => BroadcastSend.mk c routePath verb payload))) := by
  intro ls hwf
  induction ls with
  | nil => rfl
  | cons l ls ih =>
    have hl := hwf l (List.mem_cons_self l ls)
    obtain ⟨c, hc⟩ := Option.isSome_iff_exists.mp hl
    rw [broadcastListeners,
      listenerSend_ok rt paramsArr r routePath verb payload exceptConn l c hc,
      ih (fun x hx => hwf x (List.mem_cons_of_mem l hx)),
      List.filter_cons]
    rw [hc]
    by_cases hP : (some c : Option ConnId) ≠ exceptConn ∧
        paramsMatch l.params paramsArr = true ∧
        validateTruthy (r.validate (some c) paramsArr) = true
    · obtain ⟨h1, h2, h3⟩ := hP
      rw [if_pos ⟨h1, h2, h3⟩]
      simp [h1, h2, h3, List.filterMap_cons, hc]
    · rw [if_neg hP]
      have hB : ¬((decide ((some c : Option ConnId) ≠ exceptConn) &&
          paramsMatch l.params paramsArr &&
          validateTruthy (r.validate (some c) paramsArr)) = true) := by
        simp only [Bool.and_eq_true, decide_eq_true_eq]
        rintro ⟨⟨d1, d2⟩, d3⟩
        exact hP ⟨d1, d2, d3⟩
      rw [if_neg hB]
      simp

theorem broadcastLayers_ok (rt : Router) (routePath : String) (verb : RouteVerb)
    (payload : Payload) (exceptConn : Option ConnId) :
    ∀ rs : List OutRouteLayer,
      (∀ r ∈ rs, ∀ l ∈ r.listeners, (lookupConn rt l.conn).isSome = true) →
      broadcastLayers rt routePath verb payload exceptConn rs =
        .ok (rs.flatMap (fun r =>
          match r.matchFn routePath with
          | none => []
          | some paramsArr =>
            (r.listeners.filter (fun l =>
              lookupConn rt l.conn ≠ exceptConn &&
              paramsMatch l.params paramsArr &&
              validateTruthy (r.validate (lookupConn rt l.conn) paramsArr))).filterMap
              (fun l => (lookupConn rt l.conn).map
                (fun c => BroadcastSend.mk c routePath verb payload)))) := by
  intro rs hwf
  induction rs with
  | nil => rfl
  | cons r rs ih =>
    rw [broadcastLayers]
    cases hm : r.matchFn routePath with
    | none =>
      have hlay : broadcastLayer rt routePath verb payload exceptConn r = .ok [] := by
        unfold broadcastLayer
        rw [hm]
      rw [hlay, ih (fun x hx => hwf x (List.mem_cons_of_mem r hx))]
      simp [List.flatMap_cons, hm]
    | some paramsArr =>
      have hlay : broadcastLayer rt routePath verb payload exceptConn r =
          .ok ((r.listeners.filter (fun l =>
              lookupConn rt l.conn ≠ exceptConn &&
              paramsMatch l.params paramsArr &&
              validateTruthy (r.validate (lookupConn rt l.conn) paramsArr))).filterMap
            (fun l => (lookupConn rt l.conn).map
              (fun c => BroadcastSend.mk c routePath verb payload))) := by
        unfold broadcastLayer
        rw [hm]
        exact broadcastListeners_ok rt paramsArr r routePath verb payload exceptConn
          r.listeners (hwf r (List.mem_cons_self r rs))
      rw [hlay, ih (fun x hx => hwf x (List.mem_cons_of_mem r hx))]
      simp [List.flatMap_cons, hm]

end Router

/-! ### The claims -/

/-- C2: a 202 response leaves the state untouched and fires no callback;
any other status translates the response (200 to data, other statuses to
an error with empty data), invokes the registered callback exactly once
and removes it when present, and removes the retry-log entry for the
target id. -/
theorem C2_handleResponse_bookkeeping :
    (∀ cs target d, Connection.handleResponse cs target 202 d = (cs, [])) ∧
    (∀ cs target status d, status ≠ 202 →
      (Connection.ackIds cs.messagesToAck).Nodup →
      (Connection.handleResponse cs target status d).2 =
        (if target ∈ cs.callbacks then
          [Event.cbInvoked target
            (if status = 200 then new_RouteResponse d else new_RouteResponseError d)]
         else []) ∧
      (Connection.handleResponse cs target status d).1.callbacks =
        cs.callbacks.filter (fun k => k ≠ target) ∧
      (Connection.handleResponse cs target status d).1.messagesToAck =
        cs.messagesToAck.filter (fun m => m.wrappedMsg.id ≠ target) ∧
      ∀ m ∈ (Connection.handleResponse cs target status d).1.messagesToAck,
        m.wrappedMsg.id ≠ target) := by
  constructor
  · intro cs target d
    simp [Connection.handleResponse]
  · intro cs target status d hstatus hnodup
    have hrm := Connection.removeMessageToAck_eq_filter cs.messagesToAck target hnodup
    by_cases hcb : target ∈ cs.callbacks
    · rw [Connection.handleResponse_eq_of_mem cs target status d hstatus hcb]
      refine ⟨by simp [hcb], rfl, hrm, ?_⟩
      intro m hm
      exact Connection.mem_filter_ne_id (hrm ▸ hm)
    · rw [Connection.handleResponse_eq_of_not_mem cs target status d hstatus hcb]
      refine ⟨by simp [hcb], ?_, hrm, ?_⟩
      · exact (Connection.contains_filter_ne cs.callbacks target hcb).symm
      · intro m hm
        exact Connection.mem_filter_ne_id (hrm ▸ hm)

theorem C2_handleResponse_bookkeeping_witness :
    Connection.handleResponse csAck 3 202 (.str "x") = (csAck, []) ∧
    (Connection.handleResponse csAck 3 200 (.str "ok")).1.messagesToAck = [] ∧
    (Connection.handleResponse csAck 3 200 (.str "ok")).1.callbacks = [] :=
  ⟨C2_handleResponse_bookkeeping.1 csAck 3 (.str "x"),
   ((C2_handleResponse_bookkeeping.2 csAck 3 200 (.str "ok")
      (by decide) (by decide)).2.2.1).trans (by decide),
   ((C2_handleResponse_bookkeeping.2 csAck 3 200 (.str "ok")
      (by decide) (by decide)).2.1).trans (by decide)⟩

/-- C4: when the per-second counter already exceeds the limit on entry,
`sendToRoute` still invokes the supplied callback synchronously (first,
with a target of -1 and status 429), yet allocates a fresh id, sends or
queues the message as usual, registers the callback and increments the
counter: the limit is advisory. -/
theorem C4_rate_limit_advisory (now : Int) (cs : ConnState) (r : String)
    (verb : RouteVerb) (p : Payload) (hs : List (String × String))
    (h : cs.messagesSentInASecond > Connection.SEND_LIMIT_PER_SEC) :
    (Connection.sendToRoute now cs r verb p hs true).2.head? =
      some (.syncCb (-1) 429 (.str "Rate limit of 100 messages per second exceeded")) ∧
    (Connection.sendToRoute now cs r verb p hs true).1.nextMsgId = cs.nextMsgId + 1 ∧
    (Connection.sendToRoute now cs r verb p hs true).1.messagesSentInASecond =
      cs.messagesSentInASecond + 1 ∧
    (Connection.sendToRoute now cs r verb p hs true).1.callbacks =
      Connection.insertCb cs.callbacks cs.nextMsgId ∧
    (cs.connected = true →
      (Connection.sendToRoute now cs r verb p hs true).2 =
        [.syncCb (-1) 429 (.str "Rate limit of 100 messages per second exceeded"),
         .sent ⟨cs.nextMsgId,
           .route verb r (if payloadTruthy p then p else .str "") hs⟩]) ∧
    (cs.connected = false →
      (Connection.sendToRoute now cs r verb p hs true).1.messagesToSendAfterReconnect =
        cs.messagesToSendAfterReconnect ++
          [⟨cs.nextMsgId, .route verb r (if payloadTruthy p then p else .str "") hs⟩]) := by
  obtain ⟨ack, q, heq, hconn, hdis⟩ := Connection.postAndExpectResponse_spec now cs
    (.route verb r (if payloadTruthy p then p else .str "") hs) rfl
  have hout : Connection.sendToRoute now cs r verb p hs true =
      ({ cs with
          nextMsgId := cs.nextMsgId + 1,
          messagesToAck := ack,
          messagesToSendAfterReconnect := q,
          messagesSentInASecond := cs.messagesSentInASecond + 1,
          callbacks := Connection.insertCb cs.callbacks cs.nextMsgId },
       [Event.syncCb (-1) 429 (.str "Rate limit of 100 messages per second exceeded")] ++
         (if cs.connected then
           [.sent ⟨cs.nextMsgId,
             .route verb r (if payloadTruthy p then p else .str "") hs⟩]
          else [])) := by
    unfold Connection.sendToRoute
    simp only [heq]
    simp [h]
  rw [hout]
  refine ⟨by simp, rfl, rfl, rfl, fun hc => by simp [hc], fun hc => ?_⟩
  simp [(hdis hc).2]

theorem C4_rate_limit_advisory_witness :
    csHot.messagesSentInASecond > Connection.SEND_LIMIT_PER_SEC ∧
    (Connection.sendToRoute 0 csHot "/r" .POST (.str "p") [] true).2.head? =
      some (.syncCb (-1) 429 (.str "Rate limit of 100 messages per second exceeded")) ∧
    (Connection.sendToRoute 0 csHot "/r" .POST (.str "p") [] true).1.nextMsgId = 1 :=
  ⟨by decide,
   (C4_rate_limit_advisory 0 csHot "/r" .POST (.str "p") [] (by decide)).1,
   ((C4_rate_limit_advisory 0 csHot "/r" .POST (.str "p") [] (by decide)).2.1).trans
     (by decide)⟩

/-- C5: the retry log keeps at most one entry per message id:
`sendWrappedMsg` appends a fresh entry (`sentAmount = 1`, `sentAt = now`)
only when no entry with that id exists, otherwise it bumps the existing
entry in place leaving the ids unchanged, and `removeMessageToAck`
removes at most the single matching entry; so both operations preserve
per-id uniqueness of `messagesToAck`. -/
theorem C5_messagesToAck_unique_ids :
    (∀ (now : Int) (cs : ConnState) (w : MsgWrapper) (sentIdx : Int),
      (Connection.ackIds cs.messagesToAck).Nodup →
      (Connection.ackIds (Connection.sendWrappedMsg now cs w sentIdx).1.messagesToAck).Nodup) ∧
    (∀ (l : List SentMessages) (id : Int), (Connection.ackIds l).Nodup →
      (Connection.ackIds (Connection.removeMessageToAck l id)).Nodup) ∧
    (∀ (now : Int) (cs : ConnState) (w : MsgWrapper),
      Connection.messageNeedsAck w = true →
      (∀ m ∈ cs.messagesToAck, m.wrappedMsg.id ≠ w.id) →
      (Connection.sendWrappedMsg now cs w (-1)).1.messagesToAck =
        cs.messagesToAck ++ [⟨w, now, 1⟩]) ∧
    (∀ (now : Int) (cs : ConnState) (w : MsgWrapper),
      Connection.messageNeedsAck w = true →
      (∃ m ∈ cs.messagesToAck, m.wrappedMsg.id = w.id) →
      Connection.ackIds (Connection.sendWrappedMsg now cs w (-1)).1.messagesToAck =
        Connection.ackIds cs.messagesToAck) := by
  refine ⟨?_, ?_, ?_, ?_⟩
  · intro now cs w sentIdx hnodup
    unfold Connection.sendWrappedMsg
    by_cases hn : Connection.messageNeedsAck w
    · by_cases hC : (if sentIdx = -1 then
          Connection.findLastAckIdx cs.messagesToAck w.id else sentIdx) = -1
      · simp only [hn, hC, if_true, ite_true]
        have hsent : sentIdx = -1 := by
          by_contra hne
          rw [if_neg hne] at hC
          exact hne hC
        rw [hsent, if_pos rfl] at hC
        have habs := (Connection.findLastAckIdx_eq_neg_one_iff cs.messagesToAck w.id).mp hC
        simp only [Connection.ackIds, List.map_append, List.map_cons, List.map_nil]
        rw [List.nodup_append]
        refine ⟨hnodup, List.nodup_singleton _, ?_⟩
        intro x hx
        obtain ⟨m, hm, hmx⟩ := List.mem_map.mp hx
        simp only [List.mem_singleton]
        intro hxw
        exact habs m hm (by rw [← hmx] at hxw; exact hxw)
      · simp only [hn, hC, if_true, ite_true, if_false, ite_false]
        rw [Connection.bumpAt_ackIds]
        exact hnodup
    · simp only [hn, Bool.false_eq_true, if_false, ite_false]
      exact hnodup
  · intro l id hnodup
    rw [Connection.removeMessageToAck_eq_filter l id hnodup]
    have hsub : (l.filter (fun m => m.wrappedMsg.id ≠ id)).Sublist l :=
      List.filter_sublist l
    have := hsub.map (fun m => m.wrappedMsg.id)
    exact List.Nodup.sublist this hnodup
  · intro now cs w hn habs
    unfold Connection.sendWrappedMsg
    have hC : Connection.findLastAckIdx cs.messagesToAck w.id = -1 :=
      (Connection.findLastAckIdx_eq_neg_one_iff cs.messagesToAck w.id).mpr habs
    simp [hn, hC]
  · intro now cs w hn hex
    unfold Connection.sendWrappedMsg
    have hC : Connection.findLastAckIdx cs.messagesToAck w.id ≠ -1 := by
      intro h
      obtain ⟨m, hm, hid⟩ := hex
      exact (Connection.findLastAckIdx_eq_neg_one_iff cs.messagesToAck w.id).mp h m hm hid
    simp only [hn, if_true, ite_true, if_pos rfl]
    rw [if_neg hC]
    exact Connection.bumpAt_ackIds now cs.messagesToAck _

theorem C5_messagesToAck_unique_ids_witness :
    (Connection.ackIds ((Connection.sendWrappedMsg 5 { csBase with
        messagesToAck := ackTwo } ⟨4, .ping⟩ (-1)).1.messagesToAck)).Nodup ∧
    (Connection.sendWrappedMsg 5 { csBase with messagesToAck := ackTwo }
        ⟨9, .ping⟩ (-1)).1.messagesToAck = ackTwo ++ [⟨⟨9, .ping⟩, 5, 1⟩] :=
  ⟨C5_messagesToAck_unique_ids.1 5 { csBase with messagesToAck := ackTwo }
     ⟨4, .ping⟩ (-1) (by decide),
   C5_messagesToAck_unique_ids.2.2.1 5 { csBase with messagesToAck := ackTwo }
     ⟨9, .ping⟩ (by decide) (by decide)⟩

/-- C1: an envelope with id ≠ -1 delivered more than once is dispatched
exactly once, on the first delivery (which appends its dedup record);
every later delivery of the same id leaves the state unchanged and, as
send-and-forget, answers 202 "Message is being processed" while the
tracked response is pending and re-sends the original cached response
once it has settled, with no re-dispatch in either case. -/
theorem C1_duplicate_delivery_dedup :
    (∀ (σ : Type) (hooks : Hooks σ) (now : Int) (s : σ) (cs : ConnState)
      (w : MsgWrapper), w.id ≠ -1 →
      Connection.getReceivedPairById cs.receivedMessages w.id = none →
      ((Connection.handleMessage hooks now s cs w).2.2).countP Event.isDispatched = 1 ∧
      ∃ tr, Connection.getReceivedPairById
          (Connection.handleMessage hooks now s cs w).2.1.receivedMessages w.id =
          some ⟨w, tr⟩) ∧
    (∀ (σ : Type) (hooks : Hooks σ) (now : Int) (s : σ) (cs : ConnState)
      (w : MsgWrapper) (pair : ReceivedPair), w.id ≠ -1 → cs.connected = true →
      Connection.getReceivedPairById cs.receivedMessages w.id = some pair →
      pair.response.isPending = true →
      Connection.handleMessage hooks now s cs w =
        (s, cs, [.sent ⟨-1, new_MsgResponseWithCode w.id 202
          (.str "Message is being processed")⟩])) ∧
    (∀ (σ : Type) (hooks : Hooks σ) (now : Int) (s : σ) (cs : ConnState)
      (w : MsgWrapper) (pair : ReceivedPair), w.id ≠ -1 → cs.connected = true →
      Connection.getReceivedPairById cs.receivedMessages w.id = some pair →
      pair.response.isPending = false →
      Connection.handleMessage hooks now s cs w =
        (s, cs, [.sent ⟨-1, pair.response.original⟩])) := by
  refine ⟨?_, ?_, ?_⟩
  · intro σ hooks now s cs w hne hfresh
    obtain ⟨hcnt, tr, hrm⟩ := Connection.handleMessage_fresh_spec hooks now s cs w hne hfresh
    refine ⟨hcnt, tr, ?_⟩
    rw [hrm]
    exact Connection.getReceivedPairById_append cs.receivedMessages ⟨w, tr⟩
  · intro σ hooks now s cs w pair hne hc hdup hpend
    rw [Connection.handleMessage_duplicate_pending hooks now s cs w pair hne hdup hpend, hc]
    simp
  · intro σ hooks now s cs w pair hne hc hdup hpend
    rw [Connection.handleMessage_duplicate_settled hooks now s cs w pair hne hdup hpend, hc]
    simp

theorem C1_duplicate_delivery_dedup_witness :
    ((Connection.handleMessage unitHooks 0 () csBase
        ⟨7, .route .POST "/x" (.str "d") []⟩).2.2).countP Event.isDispatched = 1 ∧
    Connection.handleMessage unitHooks 0 () csDupPending
        ⟨7, .route .POST "/x" (.str "d") []⟩ =
      ((), csDupPending, [.sent ⟨-1, new_MsgResponseWithCode 7 202
        (.str "Message is being processed")⟩]) ∧
    Connection.handleMessage unitHooks 0 () csDupSettled
        ⟨7, .route .POST "/x" (.str "d") []⟩ =
      ((), csDupSettled, [.sent ⟨-1, .res 7 200 (.str "OK")⟩]) :=
  ⟨(C1_duplicate_delivery_dedup.1 Unit unitHooks 0 () csBase
      ⟨7, .route .POST "/x" (.str "d") []⟩ (by decide) (by decide)).1,
   C1_duplicate_delivery_dedup.2.1 Unit unitHooks 0 () csDupPending
      ⟨7, .route .POST "/x" (.str "d") []⟩ pendingPair (by decide) (by decide)
      (by decide) (by decide),
   C1_duplicate_delivery_dedup.2.2 Unit unitHooks 0 () csDupSettled
      ⟨7, .route .POST "/x" (.str "d") []⟩ settledPair (by decide) (by decide)
      (by decide) (by decide)⟩

/-- C9: when the per-body dispatch of an envelope with id ≠ -1 throws
(here: an unknown body discriminator), the peer is sent
`res 500 "Error handling message"` but the dedup log persists
`res 500 "No response"`; a later duplicate delivery of the same id is
therefore answered with a different response body than the first. -/
theorem C9_throw_unknown_body_divergence :
    (∀ (σ : Type) (hooks : Hooks σ) (now : Int) (s : σ) (cs : ConnState)
      (id : Int) (tag : String), id ≠ -1 → cs.connected = true →
      Connection.getReceivedPairById cs.receivedMessages id = none →
      Connection.handleMessage hooks now s cs ⟨id, .other tag⟩ =
        (s, { cs with receivedMessages := cs.receivedMessages ++
              [⟨⟨id, .other tag⟩, ⟨new_MsgGenericError id "No response", false⟩⟩] },
         [.dispatched id,
          .sent ⟨-1, new_MsgGenericError id "Error handling message"⟩])) ∧
    (∀ (σ : Type) (hooks : Hooks σ) (now : Int) (s : σ) (cs : ConnState)
      (id : Int) (tag : String), id ≠ -1 → cs.connected = true →
      Connection.getReceivedPairById cs.receivedMessages id = none →
      Connection.handleMessage hooks now s
          (Connection.handleMessage hooks now s cs ⟨id, .other tag⟩).2.1
          ⟨id, .other tag⟩ =
        (s, (Connection.handleMessage hooks now s cs ⟨id, .other tag⟩).2.1,
         [.sent ⟨-1, new_MsgGenericError id "No response"⟩])) ∧
    (∀ id : Int, new_MsgGenericError id "No response" ≠
      new_MsgGenericError id "Error handling message") := by
  refine ⟨?_, ?_, ?_⟩
  · intro σ hooks now s cs id tag hne hc hfresh
    exact Connection.handleMessage_unknown_eq hooks now s cs id tag hne hc hfresh
  · intro σ hooks now s cs id tag hne hc hfresh
    have h1 := Connection.handleMessage_unknown_eq hooks now s cs id tag hne hc hfresh
    rw [h1]
    have hdup := Connection.getReceivedPairById_append cs.receivedMessages
      ⟨⟨id, .other tag⟩, ⟨new_MsgGenericError id "No response", false⟩⟩
    have h2 := Connection.handleMessage_duplicate_settled hooks now s
      { cs with receivedMessages := cs.receivedMessages ++
          [⟨⟨id, .other tag⟩, ⟨new_MsgGenericError id "No response", false⟩⟩] }
      ⟨id, .other tag⟩
      ⟨⟨id, .other tag⟩, ⟨new_MsgGenericError id "No response", false⟩⟩
      hne hdup rfl
    rw [h2]
    simp [hc]
  · intro id
    simp [new_MsgGenericError, new_MsgResponseWithCode]

theorem C9_throw_unknown_body_divergence_witness :
    Connection.handleMessage unitHooks 0 () csBase ⟨5, .other "bogus"⟩ =
      ((), csAfterBogus,
       [.dispatched 5, .sent ⟨-1, new_MsgGenericError 5 "Error handling message"⟩]) ∧
    Connection.handleMessage unitHooks 0 ()
        (Connection.handleMessage unitHooks 0 () csBase ⟨5, .other "bogus"⟩).2.1
        ⟨5, .other "bogus"⟩ =
      ((), (Connection.handleMessage unitHooks 0 () csBase ⟨5, .other "bogus"⟩).2.1,
       [.sent ⟨-1, new_MsgGenericError 5 "No response"⟩]) :=
  ⟨C9_throw_unknown_body_divergence.1 Unit unitHooks 0 () csBase 5 "bogus"
     (by decide) rfl (by decide),
   C9_throw_unknown_body_divergence.2.1 Unit unitHooks 0 () csBase 5 "bogus"
     (by decide) rfl (by decide)⟩

/-- C3 is false as stated: an inbound `set` envelope with key `secret`
overwrites a non-empty secret (`handleDataSet` writes the header entry
unconditionally). -/
theorem C3_secret_overwritten_counterexample :
    Connection.getSecret csSecret = "abc" ∧
    Connection.getSecret (Connection.handleMessage unitHooks 0 () csSecret
        ⟨5, .dataSet "secret" (.str "xyz")⟩).2.1 = "xyz" := by
  constructor
  · rfl
  · rfl

/-- C3 amended: the `secret` header entry is changed only by an inbound
`set` body whose key is `secret`; every other inbound envelope - and
`handleResponse` in particular, which never touches the header - leaves
the entry exactly as it was. -/
theorem C3_amended_secret_preserved :
    (∀ (σ : Type) (hooks : Hooks σ) (now : Int) (s : σ) (cs : ConnState)
      (w : MsgWrapper), (∀ v : Payload, w.msg ≠ .dataSet "secret" v) →
      Connection.getHeader
          ((Connection.handleMessage hooks now s cs w).2.1).header "secret" =
        Connection.getHeader cs.header "secret") ∧
    (∀ (cs : ConnState) (t st : Int) (d : Payload),
      (Connection.handleResponse cs t st d).1.header = cs.header) := by
  constructor
  · intro σ hooks now s cs w hmsg
    by_cases hne : w.id = -1
    · rw [Connection.handleMessage_fresh_eq hooks now s cs w (Or.inl hne)]
      simp only [Connection.finishDispatch_header]
      exact Connection.dispatchSwitch_header_secret hooks s cs w.id w.msg hmsg
    · cases hlk : Connection.getReceivedPairById cs.receivedMessages w.id with
      | none =>
        rw [Connection.handleMessage_fresh_eq hooks now s cs w (Or.inr hlk)]
        simp only [Connection.finishDispatch_header]
        exact Connection.dispatchSwitch_header_secret hooks s cs w.id w.msg hmsg
      | some pair =>
        by_cases hp : pair.response.isPending = true
        · rw [Connection.handleMessage_duplicate_pending hooks now s cs w pair hne hlk hp]
        · rw [Connection.handleMessage_duplicate_settled hooks now s cs w pair hne hlk
            (by simpa using hp)]
  · intro cs t st d
    obtain ⟨cb, ack, evs, heq, _⟩ := Connection.handleResponse_spec cs t st d
    rw [heq]

theorem C3_amended_secret_preserved_witness :
    Connection.getHeader ((Connection.handleMessage unitHooks 0 () csSecret
        ⟨6, .dataSet "other" (.str "zzz")⟩).2.1).header "secret" =
      Connection.getHeader csSecret.header "secret" ∧
    Connection.getHeader ((Connection.handleMessage unitHooks 0 () csSecret
        ⟨7, .route .POST "/x" (.str "d") []⟩).2.1).header "secret" =
      Connection.getHeader csSecret.header "secret" :=
  ⟨C3_amended_secret_preserved.1 Unit unitHooks 0 () csSecret
     ⟨6, .dataSet "other" (.str "zzz")⟩
     (by intro v h; injection h with h1 h2; exact absurd h1 (by decide)),
   C3_amended_secret_preserved.1 Unit unitHooks 0 () csSecret
     ⟨7, .route .POST "/x" (.str "d") []⟩ (by intro v h; cases h)⟩

/-- C10: an `on route` envelope (id ≠ -1) arriving on a server
connection whose secret is not yet in the router's directory makes
`subscribeConnectionToRoute` throw; the sender is answered
`res 500 "Error handling message"`, and the router - in particular every
outbound layer's listener list - is left unchanged. -/
theorem C10_subscribe_before_registration (c : ConnId) (rt : Router)
    (cs : ConnState) (id now : Int) (route : String)
    (hne : id ≠ -1) (hc : cs.connected = true)
    (hfresh : Connection.getReceivedPairById cs.receivedMessages id = none)
    (hlk : Router.lookupConn rt (Connection.getSecret cs) = none) :
    Connection.handleMessage (Router.routerHooks c) now rt cs ⟨id, .onRoute route⟩ =
      (rt, { cs with receivedMessages := cs.receivedMessages ++
            [⟨⟨id, .onRoute route⟩, ⟨new_MsgGenericError id "No response", false⟩⟩] },
       [.dispatched id,
        .sent ⟨-1, new_MsgGenericError id "Error handling message"⟩]) ∧
    Router.subscribeConnectionToRoute rt route (Connection.getSecret cs) =
      .error ("Connection with id " ++ Connection.getSecret cs ++
        " does not exist") := by
  have hsub : Router.subscribeConnectionToRoute rt route (Connection.getSecret cs) =
      .error ("Connection with id " ++ Connection.getSecret cs ++
        " does not exist") := by
    unfold Router.subscribeConnectionToRoute
    rw [hlk]
    rfl
  refine ⟨?_, hsub⟩
  exact Connection.handleMessage_onRoute_throw_eq (Router.routerHooks c) now rt cs
    id route _ hne hc hfresh hsub

theorem C10_subscribe_before_registration_witness :
    Connection.handleMessage (Router.routerHooks 0) 0 rtEmpty csBase
        ⟨4, .onRoute "/t/1"⟩ =
      (rtEmpty, { csBase with receivedMessages := csBase.receivedMessages ++
            [⟨⟨4, .onRoute "/t/1"⟩, ⟨new_MsgGenericError 4 "No response", false⟩⟩] },
       [.dispatched 4,
        .sent ⟨-1, new_MsgGenericError 4 "Error handling message"⟩]) :=
  (C10_subscribe_before_registration 0 rtEmpty csBase 4 0 "/t/1"
    (by decide) rfl (by decide) rfl).1

/-- C7 is the intent but the code has a slip: `removeConnection` deletes
the directory entry, yet the listener filter's result is discarded, so
the listener for the removed connection remains in the outbound layer. -/
theorem C7_removeConnection_leaves_listeners :
    (Router.removeConnection rt7 "s").connections = [] ∧
    (Router.removeConnection rt7 "s").outRoutes.map OutRouteLayer.listeners =
      [[⟨"s", ["1"]⟩]] :=
  ⟨rfl, rfl⟩

/-- C8 fails as stated: when a listener for the same secret already
exists on a matching layer, unsubscribing removes the pre-existing entry
too, so subscribe-then-unsubscribe does not restore the prior state. -/
theorem C8_roundtrip_counterexample :
    ((Router.subscribeConnectionToRoute rt8 "/t/1" "s").map
      (fun rt' => (Router.unsubsctibeConnectionFromRoute rt' "/t/1" "s").map
        (fun rt'' => rt''.outRoutes.map OutRouteLayer.listeners))) =
      .ok (.ok [[]]) ∧
    rt8.outRoutes.map OutRouteLayer.listeners = [[⟨"s", ["1"]⟩]] ∧
    ([[]] : List (List RouteListener)) ≠ [[⟨"s", ["1"]⟩]] :=
  ⟨rfl, rfl, by decide⟩

/-- C8 amended: provided the secret is registered and no matching layer
already holds a listener for it, subscribing and then unsubscribing a
concrete path restores every outbound layer's listener list. -/
theorem C8_amended_roundtrip (rt : Router) (r s : String)
    (h1 : (Router.lookupConn rt s).isSome = true)
    (h2 : ∀ layer ∈ rt.outRoutes, (layer.matchFn r).isSome = true →
      ∀ l ∈ layer.listeners, l.conn ≠ s) :
    ∃ rt' rt'', Router.subscribeConnectionToRoute rt r s = .ok rt' ∧
      Router.unsubsctibeConnectionFromRoute rt' r s = .ok rt'' ∧
      rt''.outRoutes.map OutRouteLayer.listeners =
        rt.outRoutes.map OutRouteLayer.listeners := by
  have hnone : (Router.lookupConn rt s).isNone = false := by
    cases hl : Router.lookupConn rt s
    · rw [hl] at h1; exact absurd h1 (by simp)
    · rfl
  refine ⟨{ rt with outRoutes := rt.outRoutes.map (subAddFn r s) },
    { rt with outRoutes := (rt.outRoutes.map (subAddFn r s)).map (subDelFn r s) },
    ?_, ?_, ?_⟩
  · unfold Router.subscribeConnectionToRoute
    simp only [hnone, Bool.false_eq_true, if_false, ite_false]
    rfl
  · unfold Router.unsubsctibeConnectionFromRoute
    have hsame : Router.lookupConn
        { rt with outRoutes := rt.outRoutes.map (subAddFn r s) } s =
          Router.lookupConn rt s := rfl
    simp only [hsame, hnone, Bool.false_eq_true, if_false, ite_false]
    rfl
  · simp only [List.map_map]
    apply List.map_congr_left
    intro layer hmem
    simp only [Function.comp, subAddFn, subDelFn]
    cases hm : layer.matchFn r with
    | none => simp [hm]
    | some params =>
      simp only [hm]
      have hall := h2 layer hmem (by rw [hm]; rfl)
      have hkeep : layer.listeners.filter (fun l => l.conn ≠ s) = layer.listeners :=
        List.filter_eq_self.mpr (fun l hl => by simp [hall l hl])
      simp only [hm, List.filter_append, hkeep]
      simp
      try exact fun a ha => hall a ha

theorem C8_amended_roundtrip_witness :
    ∃ rt' rt'', Router.subscribeConnectionToRoute rt8b "/t/1" "s" = .ok rt' ∧
      Router.unsubsctibeConnectionFromRoute rt' "/t/1" "s" = .ok rt'' ∧
      rt''.outRoutes.map OutRouteLayer.listeners =
        rt8b.outRoutes.map OutRouteLayer.listeners :=
  C8_amended_roundtrip rt8b "/t/1" "s" rfl
    (by
      intro layer hl hm l hl2
      have hlay : layer = layer8 := by simpa [rt8b] using hl
      rw [hlay] at hl2
      simp [layer8] at hl2)

/-- C6 amended: a broadcast (over any of the three broadcast entry
points) reaches, over every outbound layer whose matcher accepts the
path, exactly the listeners whose looked-up connection differs from
`exceptConn`, whose stored positional parameter vector is a prefix of
the captured one (the code compares only the stored vector's positions),
and whose validator is truthy, synchronously or after its promise
settles; no other connection is sent to.  The hypothesis says every
listener's secret is bound in the directory (otherwise the send on the
missing connection throws). -/
theorem C6_broadcast_delivery (rt : Router) (routePath : String)
    (verb : RouteVerb) (payload : Payload) (exceptConn : Option ConnId)
    (hwf : ∀ r ∈ rt.outRoutes, ∀ l ∈ r.listeners,
      (Router.lookupConn rt l.conn).isSome = true) :
    Router.internalBroadcast rt routePath verb payload exceptConn =
      .ok (broadcastSpec rt routePath verb payload exceptConn) ∧
    Router.broadcastPost rt routePath payload exceptConn =
      Router.internalBroadcast rt routePath .POST payload exceptConn ∧
    Router.broadcastDeletion rt routePath payload exceptConn =
      Router.internalBroadcast rt routePath .DELETE payload exceptConn ∧
    Router.broadcastUpdate rt routePath payload exceptConn =
      Router.internalBroadcast rt routePath .UPDATE payload exceptConn := by
  refine ⟨?_, rfl, rfl, rfl⟩
  unfold Router.internalBroadcast broadcastSpec
  exact Router.broadcastLayers_ok rt routePath verb payload exceptConn
    rt.outRoutes hwf

theorem C6_broadcast_delivery_witness :
    Router.internalBroadcast rt7 "/t/1" .POST (.str "p") none =
      .ok (broadcastSpec rt7 "/t/1" .POST (.str "p") none) ∧
    broadcastSpec rt7 "/t/1" .POST (.str "p") none =
      [⟨0, "/t/1", .POST, .str "p"⟩] :=
  ⟨(C6_broadcast_delivery rt7 "/t/1" .POST (.str "p") none (by decide)).1, rfl⟩

/-- C6 is false as stated: the code compares only the first
`|stored params|` positions, so a listener whose stored vector `[]` is a
proper prefix of the captured vector `["1"]` still receives the
broadcast even though the vectors are not equal. -/
theorem C6_params_prefix_counterexample :
    Router.internalBroadcast rtOpt "/t/1" .POST (.str "p") none =
      .ok [⟨0, "/t/1", .POST, .str "p"⟩] ∧
    rtOpt.outRoutes.map OutRouteLayer.listeners = [[⟨"A", []⟩]] ∧
    layerOpt.matchFn "/t/1" = some ["1"] ∧
    ([] : List String) ≠ ["1"] :=
  ⟨rfl, rfl, rfl, by decide⟩
